import Mathlib

/-!
Verification of the summer-internships scraper against its specification.

The Python sources under `summer_internships_scraper/` are shallowly embedded:
pure functions become Lean functions, exceptions become `Except`, machine
32-bit words become `Nat` reduced modulo `2 ^ 32`, and the HTTP layer is
abstracted as an explicit response value handed to `fetch_jobs`.
-/

namespace SIS

/-! ## MD5 (RFC 1321), used by `JobOffer.get_hash`

Bytes are `Nat` values below 256; 32-bit words are `Nat` values reduced
modulo `2 ^ 32` after every arithmetic operation, mirroring hardware
wrap-around. -/

def w32 : Nat := 4294967296

def add32 (a b : Nat) : Nat := (a + b) % w32

def not32 (a : Nat) : Nat := (w32 - 1) ^^^ a

def rotl32 (x n : Nat) : Nat := ((x <<< n) ||| (x >>> (32 - n))) % w32

/-- The 64 sine-derived round constants of MD5. -/
def md5K : List Nat :=
  [3614090360, 3905402710, 606105819, 3250441966, 4118548399, 1200080426,
   2821735955, 4249261313, 1770035416, 2336552879, 4294925233, 2304563134,
   1804603682, 4254626195, 2792965006, 1236535329, 4129170786, 3225465664,
   643717713, 3921069994, 3593408605, 38016083, 3634488961, 3889429448,
   568446438, 3275163606, 4107603335, 1163531501, 2850285829, 4243563512,
   1735328473, 2368359562, 4294588738, 2272392833, 1839030562, 4259657740,
   2763975236, 1272893353, 4139469664, 3200236656, 681279174, 3936430074,
   3572445317, 76029189, 3654602809, 3873151461, 530742520, 3299628645,
   4096336452, 1126891415, 2878612391, 4237533241, 1700485571, 2399980690,
   4293915773, 2240044497, 1873313359, 4264355552, 2734768916, 1309151649,
   4149444226, 3174756917, 718787259, 3951481745]

/-- The per-operation left-rotation amounts of MD5. -/
def md5S : List Nat :=
  [7, 12, 17, 22, 7, 12, 17, 22, 7, 12, 17, 22, 7, 12, 17, 22,
   5, 9, 14, 20, 5, 9, 14, 20, 5, 9, 14, 20, 5, 9, 14, 20,
   4, 11, 16, 23, 4, 11, 16, 23, 4, 11, 16, 23, 4, 11, 16, 23,
   6, 10, 15, 21, 6, 10, 15, 21, 6, 10, 15, 21, 6, 10, 15, 21]

/-- The round-dependent mixing function of MD5. -/
def md5F (i b c d : Nat) : Nat :=
  if i < 16 then (b &&& c) ||| (not32 b &&& d)
  else if i < 32 then (d &&& b) ||| (not32 d &&& c)
  else if i < 48 then b ^^^ c ^^^ d
  else c ^^^ (b ||| not32 d)

/-- The round-dependent message-word index of MD5. -/
def md5G (i : Nat) : Nat :=
  if i < 16 then i
  else if i < 32 then (5 * i + 1) % 16
  else if i < 48 then (3 * i + 5) % 16
  else (7 * i) % 16

/-- Little-endian 32-bit word `j` of a 64-byte block. -/
def md5Word (block : List Nat) (j : Nat) : Nat :=
  block.getD (4 * j) 0 + 256 * block.getD (4 * j + 1) 0 +
    65536 * block.getD (4 * j + 2) 0 + 16777216 * block.getD (4 * j + 3) 0

/-- One of the 64 operations of an MD5 block computation. -/
def md5Step (block : List Nat) (st : Nat × Nat × Nat × Nat) (i : Nat) :
    Nat × Nat × Nat × Nat :=
  let (a, b, c, d) := st
  let t := add32 (add32 (add32 a (md5F i b c d)) (md5K.getD i 0))
    (md5Word block (md5G i))
  (d, add32 b (rotl32 t (md5S.getD i 0)), b, c)

/-- Process one 64-byte block, folding it into the running state. -/
def md5Block (st : Nat × Nat × Nat × Nat) (block : List Nat) :
    Nat × Nat × Nat × Nat :=
  let (a, b, c, d) := (List.range 64).foldl (md5Step block) st
  (add32 st.1 a, add32 st.2.1 b, add32 st.2.2.1 c, add32 st.2.2.2 d)

/-- MD5 padding: a 0x80 byte, zeros to 56 mod 64, then the bit length as a
little-endian 64-bit quantity. -/
def md5Pad (msg : List Nat) : List Nat :=
  let zeros := (56 + 64 - (msg.length + 1) % 64) % 64
  let bitLen := (8 * msg.length) % (2 ^ 64)
  msg ++ [128] ++ List.replicate zeros 0 ++
    (List.range 8).map (fun i => bitLen / 256 ^ i % 256)

/-- Split a padded message into its 64-byte blocks. -/
def md5Blocks (bytes : List Nat) : List (List Nat) :=
  (List.range (bytes.length / 64)).map (fun i => (bytes.drop (64 * i)).take 64)

def leBytes4 (x : Nat) : List Nat :=
  [x % 256, x / 256 % 256, x / 65536 % 256, x / 16777216 % 256]

def hexChar (n : Nat) : Char :=
  if n < 10 then Char.ofNat (48 + n) else Char.ofNat (87 + n)

def byteHex (b : Nat) : List Char := [hexChar (b / 16), hexChar (b % 16)]

/-- The lowercase hexadecimal MD5 digest of a byte list, as
`hashlib.md5(content).hexdigest()` produces it. -/
def md5hex (msg : List Nat) : String :=
  let st := (md5Blocks (md5Pad msg)).foldl md5Block
    (1732584193, 4023233417, 2562383102, 271733878)
  String.mk (((leBytes4 st.1 ++ leBytes4 st.2.1 ++ leBytes4 st.2.2.1 ++
    leBytes4 st.2.2.2).map byteHex).flatten)

/-- UTF-8 bytes of a string, as Python `str.encode("utf-8")`. -/
def utf8Bytes (s : String) : List Nat := s.toUTF8.toList.map (fun b => b.toNat)

/-! ## `models/offers.py` -/

/-- `JobOffer` dataclass. Optional dataclass fields are `Option String`
(`posted_date` is carried as the raw attribute string the parser extracts;
`url` may likewise be absent when the markup lacks the link). -/
structure JobOffer where
  title : Option String
  company_name : Option String
  location : Option String
  posted_date : Option String
  url : Option String
  description : Option String := Option.none
deriving DecidableEq, Repr

/-- Python string interpolation of an optional value: `str(None)` is the
literal text `"None"`. -/
def pyStr : Option String → String
  | Option.none => "None"
  | Option.some s => s

/-- The interpolated content `f"{company_name}{title}{location}"` that
`get_hash` digests. -/
def JobOffer.hashContent (o : JobOffer) : String :=
  pyStr o.company_name ++ pyStr o.title ++ pyStr o.location

/-- `JobOffer.get_hash`: the MD5 hex digest of the UTF-8 encoding of the
concatenated company name, title and location. -/
def JobOffer.get_hash (o : JobOffer) : String :=
  md5hex (utf8Bytes o.hashContent)

/-! ## `scraper/scraper.py` -/

/-- One `div.job-search-card` fragment, abstracted to the results of the
fixed `find` queries `_parse_job_card` and `_filter_cards` perform on it.
Each field is the `.text` of the matched element (or `none` when `find`
returns `None`); for the link and the time element the inner `Option` is
the value of `.get("href")` / `.get("datetime")`, which is itself `None`
when the attribute is missing. -/
structure Card where
  title : Option String
  subtitle : Option String
  location : Option String
  link : Option (Option String)
  time : Option (Option String)
deriving DecidableEq, Repr

/-- A Python exception escaping `_parse_job_card`: accessing `.text` on the
`None` returned by a failed `find` raises `AttributeError`. -/
inductive PyError where
  | attributeError (msg : String)
deriving DecidableEq, Repr

/-- An error terminating `fetch_jobs`: the `TypeError` of the input check,
`ScrapingError` for a bad HTTP status, or `ParsingError` wrapping the
underlying card failure (`raise ... from err`). -/
inductive FetchError where
  | typeError (msg : String)
  | scrapingError (msg : String)
  | parsingError (msg : String) (cause : PyError)
deriving DecidableEq, Repr

/-- A Python value handed to `fetch_jobs`, as far as the `isinstance(x, str)`
check distinguishes them. -/
inductive PyVal where
  | str (s : String)
  | pyNone
  | int (n : Int)
deriving DecidableEq, Repr

def PyVal.isStr : PyVal → Bool
  | PyVal.str _ => true
  | _ => false

def PyVal.asStr : PyVal → String
  | PyVal.str s => s
  | _ => ""

/-- The HTTP exchange abstracted: the status of the response and the list of
`div.job-search-card` fragments `BeautifulSoup.find_all` locates in its
body. -/
structure HttpResponse where
  status : Nat
  cards : List Card
deriving Repr

/-- Python `str.lower()`, modelled characterwise. -/
def pyLower (s : String) : String := String.mk (s.toList.map Char.toLower)

/-- Python `str.strip()`: drop whitespace from both ends. -/
def pyStrip (s : String) : String :=
  String.mk
    (((s.toList.dropWhile Char.isWhitespace).reverse.dropWhile
      Char.isWhitespace).reverse)

/-- Whether `ns` occurs at the very start of `hay`. -/
def startsWithChars : List Char → List Char → Bool
  | [], _ => true
  | _ :: _, [] => false
  | a :: as, b :: bs => a == b && startsWithChars as bs

/-- Whether `ns` occurs contiguously somewhere inside `hay`. -/
def occursIn (ns : List Char) : List Char → Bool
  | [] => ns.isEmpty
  | b :: bs => startsWithChars ns (b :: bs) || occursIn ns bs

/-- Plain substring test modelling the Python test `needle in haystack`. -/
def substrOf (needle hay : String) : Bool :=
  occursIn needle.toList hay.toList

/-- The `included_keywords` set of `_filter_cards`. -/
def included_keywords : List String :=
  ["backend", "cloud", "devops", "engineering", "platform",
   "site reliability", "software", "developer", "engineer"]

/-- The `excluded_keywords` set of `_filter_cards`. -/
def excluded_keywords : List String :=
  ["marketing", "sales", "business", "finance", "accounting", "hr",
   "human resources", "recruiter", "customer", "support", "service",
   "content", "design", "product manager", "project manager", "operations"]

/-- The `pos` tuple of `_filter_cards`. -/
def position_terms : List String := ["intern", "apprentice", "internship"]

/-- `LinkedInScraper._filter_cards`, following the control flow of the code: a
missing title returns `False`; otherwise the stripped, lowercased title must
pass the nested keyword conditions. -/
def filter_cards (card : Card) : Bool :=
  match card.title with
  | Option.none => false
  | Option.some t =>
    let title_text := pyLower (pyStrip t)
    if (position_terms.any (fun p => substrOf p title_text)) &&
        (included_keywords.any (fun k => substrOf k title_text)) then
      if excluded_keywords.any (fun r => substrOf r title_text) then false
      else true
    else false

/-- `LinkedInScraper._parse_job_card`: `.text.strip()` on the three
mandatory elements (raising `AttributeError` when `find` returned `None`),
guarded `.get` for the optional link and time element. -/
def parse_job_card (card : Card) : Except PyError JobOffer :=
  match card.title with
  | Option.none =>
    Except.error (PyError.attributeError
      "NoneType object has no attribute text")
  | Option.some t =>
    match card.subtitle with
    | Option.none =>
      Except.error (PyError.attributeError
        "NoneType object has no attribute text")
    | Option.some n =>
      match card.location with
      | Option.none =>
        Except.error (PyError.attributeError
          "NoneType object has no attribute text")
      | Option.some l =>
        Except.ok
          { title := Option.some (pyStrip t)
            company_name := Option.some (pyStrip n)
            location := Option.some (pyStrip l)
            url := card.link.bind id
            posted_date := card.time.bind id
            description := Option.none }

/-- The card loop of `fetch_jobs`: rejected cards are skipped; a parser
exception on an accepted card is re-raised as
`ParsingError("Error while parsing job card") from err`, aborting the loop. -/
def processCards : List Card → Except FetchError (List JobOffer)
  | [] => Except.ok []
  | card :: rest =>
    if filter_cards card then
      match parse_job_card card with
      | Except.ok job => (processCards rest).map (fun jobs => job :: jobs)
      | Except.error err =>
        Except.error (FetchError.parsingError "Error while parsing job card" err)
    else processCards rest

/-- `LinkedInScraper._format_keywords`: `keywords.replace(" ", "%20")`,
modelled characterwise since the pattern is the single space character. -/
def format_keywords (keywords : String) : String :=
  String.mk (keywords.toList.foldr
    (fun c acc => if c = ' ' then '%' :: '2' :: '0' :: acc else c :: acc) [])

/-- The request URL `f"{host}/?keywords={keywords}&geoId={geo_id}"` built
after keyword formatting. -/
def requestUrl (host keywords geo_id : String) : String :=
  host ++ "/?keywords=" ++ format_keywords keywords ++ "&geoId=" ++ geo_id

/-- `LinkedInScraper.fetch_jobs`, with the network abstracted: `response` is
what `session.get(url)` would yield. The `isinstance` check runs before the
request is issued, so its outcome does not depend on `response`; a status
other than 200 raises `ScrapingError`; otherwise the cards are filtered and
parsed. -/
def fetch_jobs (host : String) (location : PyVal × PyVal) (keywords : PyVal)
    (response : HttpResponse) : Except FetchError (List JobOffer) :=
  let geo_id := location.1
  let country := location.2
  if !(geo_id.isStr && country.isStr && keywords.isStr) then
    Except.error (FetchError.typeError "location and keywords have to be str")
  else
    let url := requestUrl host keywords.asStr geo_id.asStr
    if response.status ≠ 200 then
      Except.error (FetchError.scrapingError ("Error while requesting " ++ url))
    else processCards response.cards

/-! ## `repository/jobs.py` (not present under `src/`) and `main.py` -/

/-- Modelled from the spec: `JobRepository` of
`repository/jobs.py`, which is absent from `src/`. The spec describes it as
"a mapping from `identity_hash` to Record, keys unique", grown
append-only; it is carried here as an insertion-ordered association list
keyed by `JobOffer.get_hash`. -/
structure JobRepository where
  jobs : List (String × JobOffer)
deriving Repr

/-- Modelled from the spec: `JobRepository.add_jobs` of the absent
`repository/jobs.py` — "for each record, compute `identity_hash`; if not
already present, insert; returns `(new_count, total_count_after)`. Pure
set-union semantics — no update of the fields of an existing entry when the same
hash recurs". The repository after the call is returned alongside the two
counts. -/
def add_jobs (repo : JobRepository) (records : List JobOffer) :
    (Nat × Nat) × JobRepository :=
  let final := records.foldl
    (fun st r =>
      let h := r.get_hash
      if h ∈ st.2.jobs.map Prod.fst then st
      else (st.1 + 1, { jobs := st.2.jobs ++ [(h, r)] }))
    ((0 : Nat), repo)
  ((final.1, final.2.jobs.length), final.2)

/-- Modelled from the spec: `JobRepository.get_all_jobs` of the absent
`repository/jobs.py` — "returns the current full set of stored Records". -/
def get_all_jobs (repo : JobRepository) : List JobOffer :=
  repo.jobs.map Prod.snd

/-- `asyncio.gather(*tasks)` as `main` awaits it: when every per-location
fetch succeeded it yields the list of their results in task order; when any
fetch raised, awaiting the gather re-raises that failure and the other
results are discarded. -/
def gatherResults : List (Except FetchError (List JobOffer)) →
    Except FetchError (List (List JobOffer))
  | [] => Except.ok []
  | Except.error e :: _ => Except.error e
  | Except.ok jobs :: rest => (gatherResults rest).map (fun ls => jobs :: ls)

/-- `main`, with the fetch outcome of each location supplied explicitly: the
gather is awaited first; only then are the per-location lists folded into
the repository with `add_jobs`, and `get_all_jobs` feeds the markdown
export. On a failed gather the run aborts with that failure, building no
repository and exporting nothing. -/
def mainRun (results : List (Except FetchError (List JobOffer))) :
    Except FetchError (JobRepository × List JobOffer) :=
  match gatherResults results with
  | Except.error e => Except.error e
  | Except.ok lists =>
    let repo := lists.foldl (fun rp jobs => (add_jobs rp jobs).2) ⟨[]⟩
    Except.ok (repo, get_all_jobs repo)

/-! ## Statement-side definitions

`acceptsTitle` restates the acceptance rule in the three-clause form the
spec gives it, to be compared with the control flow of `filter_cards`. -/

/-- The spec-side acceptance predicate on a title: the lower-cased, stripped
text contains some position term, some included term, and no excluded
term. -/
def acceptsTitle (t : String) : Prop :=
  (∃ p ∈ position_terms, substrOf p (pyLower (pyStrip t)) = true) ∧
  (∃ k ∈ included_keywords, substrOf k (pyLower (pyStrip t)) = true) ∧
  (∀ r ∈ excluded_keywords, substrOf r (pyLower (pyStrip t)) = false)

/-- A card carrying only a title. -/
def titleCard (t : String) : Card :=
  ⟨Option.some t, Option.some "Acme", Option.some "Lisbon",
    Option.none, Option.none⟩

/-- A card whose title marker is missing. -/
def noTitleCard : Card :=
  ⟨Option.none, Option.some "Acme", Option.some "Lisbon",
    Option.none, Option.none⟩

/-- A well-formed card that the filter accepts and the parser handles. -/
def goodCard : Card := titleCard "Software Engineer Intern"

/-- The record parsed from `goodCard`. -/
def goodJob : JobOffer :=
  ⟨Option.some "Software Engineer Intern", Option.some "Acme",
    Option.some "Lisbon", Option.none, Option.none, Option.none⟩

/-- A filter-accepted card whose company marker is missing, so parsing it
raises. -/
def noSubtitleCard : Card :=
  ⟨Option.some "Backend Intern", Option.none, Option.some "Lisbon",
    Option.none, Option.none⟩

/-! ## Claim theorems -/

/-- C2: `get_hash` is the deterministic digest of the concatenation of
`company_name`, `title` and `location`, in that order, in their Python
string forms (the literal text "None" when absent); consequently any two
records agreeing on that triple — absent values included — share their
hash, whatever their `url`, `posted_date` or `description`. -/
theorem C2_hash_deterministic :
    (∀ o : JobOffer,
      o.get_hash =
        md5hex (utf8Bytes
          (pyStr o.company_name ++ pyStr o.title ++ pyStr o.location))) ∧
    (∀ o1 o2 : JobOffer,
      o1.company_name = o2.company_name → o1.title = o2.title →
      o1.location = o2.location → o1.get_hash = o2.get_hash) := by
  refine ⟨fun o => rfl, fun o1 o2 h1 h2 h3 => ?_⟩
  simp only [JobOffer.get_hash, JobOffer.hashContent, h1, h2, h3]

/-- Witness for C2: two records with the same (company, title, location)
triple but different `url` and `posted_date` hash identically. -/
theorem C2_hash_deterministic_witness :
    (⟨Option.some "Software Engineer Intern", Option.some "Acme",
        Option.some "Lisbon", Option.some "2026-05-01",
        Option.some "https://x/1", Option.none⟩ : JobOffer).get_hash =
    (⟨Option.some "Software Engineer Intern", Option.some "Acme",
        Option.some "Lisbon", Option.none, Option.none,
        Option.none⟩ : JobOffer).get_hash :=
  C2_hash_deterministic.2 _ _ rfl rfl rfl

/-- C9: the hash is not injective on the (company, title, location) triple:
concatenating without separator makes company "AB" / title "C" collide with
company "A" / title "BC", and a literal company string "None" collides with
an absent company. -/
theorem C9_hash_collisions :
    ((⟨Option.some "C", Option.some "AB", Option.some "X", Option.none,
        Option.none, Option.none⟩ : JobOffer).title,
      (⟨Option.some "C", Option.some "AB", Option.some "X", Option.none,
        Option.none, Option.none⟩ : JobOffer).company_name) ≠
      ((⟨Option.some "BC", Option.some "A", Option.some "X", Option.none,
        Option.none, Option.none⟩ : JobOffer).title,
       (⟨Option.some "BC", Option.some "A", Option.some "X", Option.none,
        Option.none, Option.none⟩ : JobOffer).company_name) ∧
    (⟨Option.some "C", Option.some "AB", Option.some "X", Option.none,
        Option.none, Option.none⟩ : JobOffer).get_hash =
      (⟨Option.some "BC", Option.some "A", Option.some "X", Option.none,
        Option.none, Option.none⟩ : JobOffer).get_hash ∧
    (⟨Option.some "T", Option.some "None", Option.some "L", Option.none,
        Option.none, Option.none⟩ : JobOffer).company_name ≠
      (⟨Option.some "T", Option.none, Option.some "L", Option.none,
        Option.none, Option.none⟩ : JobOffer).company_name ∧
    (⟨Option.some "T", Option.some "None", Option.some "L", Option.none,
        Option.none, Option.none⟩ : JobOffer).get_hash =
      (⟨Option.some "T", Option.none, Option.some "L", Option.none,
        Option.none, Option.none⟩ : JobOffer).get_hash := by
  refine ⟨by decide, rfl, by decide, rfl⟩

/-- C1: the filter accepts a card exactly when its title exists and the
lower-cased text contains some position term and some included term and no
excluded term; moreover "Internal Software Engineer" is accepted (plain
substring matching, no word boundaries), "Backend Engineer Intern (Content
Team)" is rejected, and a card without a title element is rejected. -/
theorem C1_filter_accept_iff :
    (∀ card : Card, filter_cards card = true ↔
      ∃ t, card.title = Option.some t ∧ acceptsTitle t) ∧
    filter_cards (titleCard "Internal Software Engineer") = true ∧
    filter_cards (titleCard "Backend Engineer Intern (Content Team)") = false ∧
    filter_cards noTitleCard = false := by
  refine ⟨fun card => ?_, by decide, by decide, rfl⟩
  cases hc : card.title with
  | none => simp [filter_cards, hc]
  | some t =>
    simp only [filter_cards, hc, acceptsTitle]
    cases e1 : (position_terms.any fun p => substrOf p (pyLower (pyStrip t))) <;>
      cases e2 : (included_keywords.any fun k =>
        substrOf k (pyLower (pyStrip t))) <;>
        cases e3 : (excluded_keywords.any fun r =>
          substrOf r (pyLower (pyStrip t))) <;>
          simp_all

/-- Witness for C1: instantiating the equivalence on a concrete card, the
spec-side predicate forces acceptance of "DevOps Apprentice". -/
theorem C1_filter_accept_iff_witness :
    filter_cards (titleCard "DevOps Apprentice") = true :=
  (C1_filter_accept_iff.1 (titleCard "DevOps Apprentice")).mpr
    ⟨"DevOps Apprentice", rfl, by unfold acceptsTitle; decide⟩

/-- Any error the card loop produces wraps a parser failure: it is a
`ParsingError` with its underlying cause. -/
theorem processCards_parse_error (cards : List Card)
    (h : ∃ c ∈ cards, filter_cards c = true ∧
      ∃ e, parse_job_card c = Except.error e) :
    ∃ e, processCards cards =
      Except.error (FetchError.parsingError "Error while parsing job card" e) := by
  induction cards with
  | nil => simp at h
  | cons card rest ih =>
    obtain ⟨c, hmem, hf, e, hp⟩ := h
    by_cases hfc : filter_cards card = true
    · cases hpc : parse_job_card card with
      | error err => exact ⟨err, by simp [processCards, hfc, hpc]⟩
      | ok j =>
        have hcr : c ∈ rest := by
          rcases List.mem_cons.mp hmem with h1 | h1
          · subst h1; rw [hp] at hpc; cases hpc
          · exact h1
        obtain ⟨e2, h2⟩ := ih ⟨c, hcr, hf, e, hp⟩
        exact ⟨e2, by simp [processCards, hfc, hpc, h2, Except.map]⟩
    · have hcr : c ∈ rest := by
        rcases List.mem_cons.mp hmem with h1 | h1
        · subst h1; exact absurd hf hfc
        · exact h1
      obtain ⟨e2, h2⟩ := ih ⟨c, hcr, hf, e, hp⟩
      exact ⟨e2, by simp [processCards, hfc, h2]⟩

/-- The card loop can only fail with a `ParsingError`, never with the
`TypeError` or `ScrapingError` of the outer layers. -/
theorem processCards_errors_are_parsing (cards : List Card) (e : FetchError)
    (h : processCards cards = Except.error e) :
    ∃ msg cause, e = FetchError.parsingError msg cause := by
  induction cards with
  | nil => simp [processCards] at h
  | cons card rest ih =>
    by_cases hfc : filter_cards card = true
    · simp only [processCards, hfc, if_true] at h
      cases hpc : parse_job_card card with
      | error err =>
        rw [hpc] at h
        exact ⟨_, _, (Except.error.inj h).symm⟩
      | ok j =>
        rw [hpc] at h
        cases hr : processCards rest with
        | error e2 =>
          rw [hr] at h
          simp [Except.map] at h
          subst h
          exact ih hr
        | ok l => rw [hr] at h; simp [Except.map] at h
    · simp only [processCards, hfc, if_false] at h
      exact ih h

/-- A gather over outcomes among which some fetch failed itself fails. -/
theorem gatherResults_error (results : List (Except FetchError (List JobOffer)))
    (e : FetchError) (hmem : Except.error e ∈ results) :
    ∃ e2, gatherResults results = Except.error e2 := by
  induction results with
  | nil => cases hmem
  | cons head rest ih =>
    cases head with
    | error eh => exact ⟨eh, rfl⟩
    | ok l =>
      have hr : Except.error e ∈ rest := by
        rcases List.mem_cons.mp hmem with h1 | h1
        · exact absurd h1 (by simp)
        · exact h1
      obtain ⟨e2, h2⟩ := ih hr
      exact ⟨e2, by simp [gatherResults, h2, Except.map]⟩

/-- C3: with a successful response, a parse failure on any filter-accepted
card aborts the whole fetch with a `ParsingError` wrapping the underlying
failure as its cause; no list of records is returned for that location. -/
theorem C3_parser_failure_aborts_fetch :
    ∀ (host geo country kw : String) (resp : HttpResponse),
      resp.status = 200 →
      (∃ c ∈ resp.cards, filter_cards c = true ∧
        ∃ e, parse_job_card c = Except.error e) →
      ∃ cause, fetch_jobs host (PyVal.str geo, PyVal.str country)
          (PyVal.str kw) resp =
        Except.error
          (FetchError.parsingError "Error while parsing job card" cause) := by
  intro host geo country kw resp hs h
  obtain ⟨e2, h2⟩ := processCards_parse_error resp.cards h
  exact ⟨e2, by simp [fetch_jobs, PyVal.isStr, PyVal.asStr, hs, h2]⟩

/-- Witness for C3: a well-formed card followed by a filter-accepted card
missing its company marker aborts the whole fetch. -/
theorem C3_parser_failure_aborts_fetch_witness :
    ∃ cause, fetch_jobs "https://h" (PyVal.str "100364837", PyVal.str "Portugal")
        (PyVal.str "Summer 2026") ⟨200, [goodCard, noSubtitleCard]⟩ =
      Except.error
        (FetchError.parsingError "Error while parsing job card" cause) :=
  C3_parser_failure_aborts_fetch _ _ _ _ _ rfl
    ⟨noSubtitleCard, by simp, by decide,
      PyError.attributeError "NoneType object has no attribute text", rfl⟩

/-- Counterexample to C4 as stated: a response containing a card without a
title marker next to a well-formed card does NOT make `fetch_jobs` fail; the
titleless card is rejected by the filter before the parser runs, and the
fetch succeeds with the remaining record. -/
theorem C4_counterexample_missing_title_is_filtered :
    fetch_jobs "https://h" (PyVal.str "100364837", PyVal.str "Portugal")
      (PyVal.str "Summer 2026") ⟨200, [noTitleCard, goodCard]⟩ =
      Except.ok [goodJob] := by rfl

/-- C4 as amended: a missing mandatory field (title, company or location)
makes `parse_job_card` itself fail; when the three are present parsing
succeeds with `url` and `posted_date` simply absent when their markers are
missing; but a card without a title marker is rejected by the filter, so it
never reaches the parser and does not fail the fetch. -/
theorem C4_amended_mandatory_fields :
    (∀ c : Card, (c.title = Option.none ∨ c.subtitle = Option.none ∨
        c.location = Option.none) →
      ∃ e, parse_job_card c = Except.error e) ∧
    (∀ (c : Card) (t n l : String), c.title = Option.some t →
      c.subtitle = Option.some n → c.location = Option.some l →
      parse_job_card c = Except.ok
        ⟨Option.some (pyStrip t), Option.some (pyStrip n),
          Option.some (pyStrip l), c.time.bind id, c.link.bind id,
          Option.none⟩) ∧
    (∀ c : Card, c.title = Option.none → filter_cards c = false) := by
  refine ⟨fun c h => ?_, fun c t n l ht hn hl => ?_, fun c h => ?_⟩
  · cases hT : c.title with
    | none =>
      exact ⟨PyError.attributeError "NoneType object has no attribute text",
        by simp [parse_job_card, hT]⟩
    | some t =>
      cases hN : c.subtitle with
      | none =>
        exact ⟨PyError.attributeError "NoneType object has no attribute text",
          by simp [parse_job_card, hT, hN]⟩
      | some n =>
        cases hL : c.location with
        | none =>
          exact ⟨PyError.attributeError "NoneType object has no attribute text",
            by simp [parse_job_card, hT, hN, hL]⟩
        | some l => simp_all
  · simp [parse_job_card, ht, hn, hl]
  · simp [filter_cards, h]

/-- Witness for C4 as amended: the card missing its company marker fails to
parse, the well-formed card parses to its record with optional fields
absent, and the titleless card is filtered out. -/
theorem C4_amended_mandatory_fields_witness :
    (∃ e, parse_job_card noSubtitleCard = Except.error e) ∧
    parse_job_card goodCard = Except.ok goodJob ∧
    filter_cards noTitleCard = false := by
  refine ⟨C4_amended_mandatory_fields.1 noSubtitleCard (Or.inr (Or.inl rfl)),
    ?_, C4_amended_mandatory_fields.2.2 noTitleCard rfl⟩
  have h := C4_amended_mandatory_fields.2.1 goodCard
    "Software Engineer Intern" "Acme" "Lisbon" rfl rfl rfl
  rw [h]
  rfl

/-- C5: a non-2xx response status fails the whole fetch with a
`ScrapingError` carrying the requested URL, and no records are produced. -/
theorem C5_non_2xx_fails :
    ∀ (host geo country kw : String) (resp : HttpResponse),
      resp.status < 200 ∨ 300 ≤ resp.status →
      fetch_jobs host (PyVal.str geo, PyVal.str country) (PyVal.str kw) resp =
        Except.error (FetchError.scrapingError
          ("Error while requesting " ++ requestUrl host kw geo)) := by
  intro host geo country kw resp h
  have hne : resp.status ≠ 200 := by omega
  simp [fetch_jobs, PyVal.isStr, PyVal.asStr, hne]

/-- Witness for C5: a 404 response fails the fetch with the scraping error
carrying the URL that was requested. -/
theorem C5_non_2xx_fails_witness :
    fetch_jobs "https://h" (PyVal.str "100364837", PyVal.str "Portugal")
      (PyVal.str "Summer 2026") ⟨404, []⟩ =
      Except.error (FetchError.scrapingError ("Error while requesting " ++
        requestUrl "https://h" "Summer 2026" "100364837")) :=
  C5_non_2xx_fails _ _ _ _ _ (Or.inr (by decide))

/-- Counterexample to C6 as stated: with all three inputs the EMPTY string —
text that is not non-empty — `fetch_jobs` does not fail with a
type/validation error; the call reaches the HTTP layer and fails there with
a scraping error instead. -/
theorem C6_counterexample_empty_text_accepted :
    fetch_jobs "https://host" (PyVal.str "", PyVal.str "") (PyVal.str "")
      ⟨404, []⟩ =
      Except.error (FetchError.scrapingError
        ("Error while requesting " ++ requestUrl "https://host" "" "")) ∧
    FetchError.scrapingError
        ("Error while requesting " ++ requestUrl "https://host" "" "") ≠
      FetchError.typeError "location and keywords have to be str" := by
  refine ⟨by simp [fetch_jobs, PyVal.isStr, PyVal.asStr], by decide⟩

/-- C6 as amended: `fetch_jobs` only requires the geo-identifier, display
name and keywords to be text (`str`): a non-string input fails with a
`TypeError` before the network is consulted (for every response), while
string inputs — empty ones included — never produce a `TypeError`. -/
theorem C6_amended_type_check_only :
    (∀ (host : String) (geo country kw : PyVal) (resp : HttpResponse),
      ¬(geo.isStr = true ∧ country.isStr = true ∧ kw.isStr = true) →
      fetch_jobs host (geo, country) kw resp =
        Except.error
          (FetchError.typeError "location and keywords have to be str")) ∧
    (∀ (host geo country kw : String) (resp : HttpResponse) (m : String),
      fetch_jobs host (PyVal.str geo, PyVal.str country) (PyVal.str kw) resp ≠
        Except.error (FetchError.typeError m)) := by
  constructor
  · intro host geo country kw resp h
    have hb : (geo.isStr && country.isStr && kw.isStr) = false := by
      cases hg : geo.isStr <;> cases hc : country.isStr <;>
        cases hk : kw.isStr <;> simp_all
    simp [fetch_jobs, hb]
  · intro host geo country kw resp m h
    by_cases hs : resp.status = 200
    · simp [fetch_jobs, PyVal.isStr, hs] at h
      obtain ⟨msg, cause, hmc⟩ := processCards_errors_are_parsing _ _ h
      cases hmc
    · simp [fetch_jobs, PyVal.isStr, PyVal.asStr, hs] at h

/-- Witness for C6 as amended: a `None` geo-identifier fails the type check
even on a response that would otherwise succeed. -/
theorem C6_amended_type_check_only_witness :
    fetch_jobs "https://host" (PyVal.pyNone, PyVal.str "Portugal")
      (PyVal.str "Summer 2026") ⟨200, []⟩ =
      Except.error
        (FetchError.typeError "location and keywords have to be str") :=
  C6_amended_type_check_only.1 _ _ _ _ _ (by simp [PyVal.isStr])

/-- C7: `add_jobs` is idempotent under the identity hash: adding the same
record again yields a zero new-count, an unchanged total, and a repository
whose stored entries are untouched (the first-seen record wins). -/
theorem C7_add_jobs_idempotent :
    ∀ (repo : JobRepository) (r : JobOffer),
      (add_jobs (add_jobs repo [r]).2 [r]).1.1 = 0 ∧
      (add_jobs (add_jobs repo [r]).2 [r]).1.2 = (add_jobs repo [r]).1.2 ∧
      (add_jobs (add_jobs repo [r]).2 [r]).2 = (add_jobs repo [r]).2 := by
  intro repo r
  by_cases h : r.get_hash ∈ repo.jobs.map Prod.fst
  · simp [add_jobs, h]
  · simp [add_jobs, h]

/-- C8: the orchestration is all-or-nothing: if any per-location fetch
failed, the run fails with a propagated error, the other results are
discarded, and neither a populated repository nor an export is produced. -/
theorem C8_failure_aborts_run :
    ∀ results : List (Except FetchError (List JobOffer)),
      (∃ e, Except.error e ∈ results) →
      ∃ e2, mainRun results = Except.error e2 := by
  intro results ⟨e, hmem⟩
  obtain ⟨e2, h2⟩ := gatherResults_error results e hmem
  exact ⟨e2, by simp [mainRun, h2]⟩

/-- Witness for C8: one successful location next to one failed location
aborts the whole run. -/
theorem C8_failure_aborts_run_witness :
    ∃ e2, mainRun [Except.ok [goodJob],
      Except.error (FetchError.scrapingError "Error while requesting u")] =
      Except.error e2 :=
  C8_failure_aborts_run _
    ⟨FetchError.scrapingError "Error while requesting u", by simp⟩

/-- C10: only a status of exactly 200 proceeds to parsing; every other
status — other 2xx success statuses such as 201 included — fails the fetch
with a scraping error. -/
theorem C10_only_200_proceeds :
    ∀ (host geo country kw : String) (resp : HttpResponse),
      (resp.status ≠ 200 →
        fetch_jobs host (PyVal.str geo, PyVal.str country) (PyVal.str kw)
            resp =
          Except.error (FetchError.scrapingError
            ("Error while requesting " ++ requestUrl host kw geo))) ∧
      (resp.status = 200 →
        fetch_jobs host (PyVal.str geo, PyVal.str country) (PyVal.str kw)
            resp =
          processCards resp.cards) := by
  intro host geo country kw resp
  refine ⟨fun h => ?_, fun h => ?_⟩ <;>
    simp [fetch_jobs, PyVal.isStr, PyVal.asStr, h]

/-- Witness for C10: status 201, though a success status, fails the fetch
with a scraping error, while status 200 proceeds to the card loop. -/
theorem C10_only_200_proceeds_witness :
    fetch_jobs "https://h" (PyVal.str "100364837", PyVal.str "Portugal")
      (PyVal.str "Summer 2026") ⟨201, []⟩ =
      Except.error (FetchError.scrapingError ("Error while requesting " ++
        requestUrl "https://h" "Summer 2026" "100364837")) ∧
    fetch_jobs "https://h" (PyVal.str "100364837", PyVal.str "Portugal")
      (PyVal.str "Summer 2026") ⟨200, []⟩ = processCards [] :=
  ⟨(C10_only_200_proceeds "https://h" "100364837" "Portugal" "Summer 2026"
      ⟨201, []⟩).1 (by decide),
    (C10_only_200_proceeds "https://h" "100364837" "Portugal" "Summer 2026"
      ⟨200, []⟩).2 rfl⟩

end SIS
